import Mathlib

/-!
Verification of the codeplug normalization-and-projection pipeline.

This file gives a shallow embedding, in Lean 4, of the core logic of the
repository: the per-script text normalizers (`convert_umlauts`), the
Maidenhead grid geocoders (`maidenhead_to_latlon`, `maidenhead_to_gps`),
the frequency band repair of `fix_frequency_bands.py`, the FM channel
projector of `create_icom_fm_csv.py`, the SOTA projector of
`create_icom_sota_csv.py`, and the Vienna FM radio
deduplicator/ranker/projector of `create_icom_vienna_radio_csv.py`.

Python strings are modeled as `List Char`, Python floats as `ℚ` (every
literal appearing in the scripts is an exact decimal), fallible parses as
`Option`/inductive fields, and CSV rows as structures carrying the parsed
form of the fields each script actually reads.
-/

namespace Codeplug

/- The Batteries rational-number operations are `@[irreducible]`, which
blocks kernel evaluation in `decide`; reset them so that the embedded
arithmetic is executable. -/
attribute [local semireducible] Rat.mul Rat.add Rat.sub Rat.inv Rat.ofScientific

/-! ## Python string primitives -/

/-- Python `str.upper()` restricted to its ASCII behavior (the inputs under
study are validated or compared against ASCII alphabets). -/
def pyUpper (c : Char) : Char :=
  if 97 ≤ c.toNat ∧ c.toNat ≤ 122 then Char.ofNat (c.toNat - 32) else c

/-- Python `str.lower()` restricted to its ASCII behavior. -/
def pyLower (c : Char) : Char :=
  if 65 ≤ c.toNat ∧ c.toNat ≤ 90 then Char.ofNat (c.toNat + 32) else c

/-- The whitespace characters removed by Python `str.strip()`. -/
def isPySpace (c : Char) : Bool :=
  c = ' ' ∨ c = Char.ofNat 9 ∨ c = Char.ofNat 10 ∨ c = Char.ofNat 13 ∨
    c = Char.ofNat 11 ∨ c = Char.ofNat 12

/-- Python `str.strip()`. -/
def pyStrip (s : List Char) : List Char :=
  ((s.dropWhile isPySpace).reverse.dropWhile isPySpace).reverse

/-- One step of Python `str.replace(pat, repl)`: scan left to right, replace
non-overlapping occurrences. The `Nat` argument is recursion fuel, always
called with the length of the string so it never runs out; it only makes the
recursion structural. -/
def replaceAllAux (pat repl : List Char) : Nat → List Char → List Char
  | 0, s => s
  | _ + 1, [] => []
  | n + 1, c :: rest =>
    if pat ≠ [] ∧ pat.isPrefixOf (c :: rest) then
      repl ++ replaceAllAux pat repl n ((c :: rest).drop pat.length)
    else
      c :: replaceAllAux pat repl n rest

/-- Python `str.replace(pat, repl)` (for the non-empty patterns used by the
scripts). -/
def replaceAll (pat repl s : List Char) : List Char :=
  replaceAllAux pat repl s.length s

/-- The shared loop shape `for umlaut, replacement in umlaut_map.items():
result = result.replace(umlaut, replacement)`. -/
def applyUmlautMap (m : List (List Char × List Char)) (text : List Char) :
    List Char :=
  m.foldl (fun result p => replaceAll p.1 p.2 result) text

/-! ## The three umlaut substitution tables found in the sources -/

/-- Substitution table of `convert_umlauts` in create_pota_parks_api.py,
transcribed code point for code point (byte-identical to the table in
generate_gps_data.py). CPython dict literals keep insertion order and
collapse the duplicated straight-quote key to one entry; note also that the
line that was meant to map curly apostrophes actually parses as one
triple-quoted-string key, which is reproduced here verbatim. -/
def umlaut_map_api : List (List Char × List Char) :=
  [([Char.ofNat 0xe4], ['a', 'e']),
  ([Char.ofNat 0xc4], ['A', 'e']),
  ([Char.ofNat 0xf6], ['o', 'e']),
  ([Char.ofNat 0xd6], ['O', 'e']),
  ([Char.ofNat 0xfc], ['u', 'e']),
  ([Char.ofNat 0xdc], ['U', 'e']),
  ([Char.ofNat 0xdf], ['s', 's']),
  ([Char.ofNat 0xe9], ['e']),
  ([Char.ofNat 0xc9], ['E']),
  ([Char.ofNat 0xe8], ['e']),
  ([Char.ofNat 0xc8], ['E']),
  ([Char.ofNat 0xe1], ['a']),
  ([Char.ofNat 0xc1], ['A']),
  ([Char.ofNat 0xe0], ['a']),
  ([Char.ofNat 0xc0], ['A']),
  ([Char.ofNat 0xed], ['i']),
  ([Char.ofNat 0xcd], ['I']),
  ([Char.ofNat 0xec], ['i']),
  ([Char.ofNat 0xcc], ['I']),
  ([Char.ofNat 0xf3], ['o']),
  ([Char.ofNat 0xd3], ['O']),
  ([Char.ofNat 0xf2], ['o']),
  ([Char.ofNat 0xd2], ['O']),
  ([Char.ofNat 0xfa], ['u']),
  ([Char.ofNat 0xda], ['U']),
  ([Char.ofNat 0xf9], ['u']),
  ([Char.ofNat 0xd9], ['U']),
  ([Char.ofNat 0xf1], ['n']),
  ([Char.ofNat 0xd1], ['N']),
  ([Char.ofNat 0xe7], ['c']),
  ([Char.ofNat 0xc7], ['C']),
  ([Char.ofNat 0x2013], ['-']),
  ([Char.ofNat 0x2014], ['-']),
  ([Char.ofNat 0x22], [Char.ofNat 0x22]),
  ([Char.ofNat 0x3a, ' ', Char.ofNat 0x22, Char.ofNat 0x27, Char.ofNat 0x22,
    Char.ofNat 0x2c, ' '], [Char.ofNat 0x27]),
  ([Char.ofNat 0x2026], ['.', '.', '.']),
  ([Char.ofNat 0x159], ['r']),
  ([Char.ofNat 0x158], ['R']),
  ([Char.ofNat 0x13e], ['l']),
  ([Char.ofNat 0x13d], ['L']),
  ([Char.ofNat 0x161], ['s']),
  ([Char.ofNat 0x160], ['S']),
  ([Char.ofNat 0x165], ['t']),
  ([Char.ofNat 0x164], ['T']),
  ([Char.ofNat 0x17e], ['z']),
  ([Char.ofNat 0x17d], ['Z']),
  ([Char.ofNat 0xfd], ['y']),
  ([Char.ofNat 0xdd], ['Y']),
  ([Char.ofNat 0x10d], ['c']),
  ([Char.ofNat 0x10c], ['C']),
  ([Char.ofNat 0x10f], ['d']),
  ([Char.ofNat 0x10e], ['D']),
  ([Char.ofNat 0x148], ['n']),
  ([Char.ofNat 0x147], ['N']),
  ([Char.ofNat 0xf4], ['o']),
  ([Char.ofNat 0xd4], ['O'])]

/-- Substitution table of `convert_umlauts` in fix_umlauts.py (the
German/Romance subset, no Slavic letters). -/
def umlaut_map_fix : List (List Char × List Char) :=
  [([Char.ofNat 0xe4], ['a', 'e']),
  ([Char.ofNat 0xc4], ['A', 'e']),
  ([Char.ofNat 0xf6], ['o', 'e']),
  ([Char.ofNat 0xd6], ['O', 'e']),
  ([Char.ofNat 0xfc], ['u', 'e']),
  ([Char.ofNat 0xdc], ['U', 'e']),
  ([Char.ofNat 0xdf], ['s', 's']),
  ([Char.ofNat 0xe9], ['e']),
  ([Char.ofNat 0xc9], ['E']),
  ([Char.ofNat 0xe8], ['e']),
  ([Char.ofNat 0xc8], ['E']),
  ([Char.ofNat 0xe1], ['a']),
  ([Char.ofNat 0xc1], ['A']),
  ([Char.ofNat 0xe0], ['a']),
  ([Char.ofNat 0xc0], ['A']),
  ([Char.ofNat 0xed], ['i']),
  ([Char.ofNat 0xcd], ['I']),
  ([Char.ofNat 0xec], ['i']),
  ([Char.ofNat 0xcc], ['I']),
  ([Char.ofNat 0xf3], ['o']),
  ([Char.ofNat 0xd3], ['O']),
  ([Char.ofNat 0xf2], ['o']),
  ([Char.ofNat 0xd2], ['O']),
  ([Char.ofNat 0xfa], ['u']),
  ([Char.ofNat 0xda], ['U']),
  ([Char.ofNat 0xf9], ['u']),
  ([Char.ofNat 0xd9], ['U']),
  ([Char.ofNat 0xf1], ['n']),
  ([Char.ofNat 0xd1], ['N']),
  ([Char.ofNat 0xe7], ['c']),
  ([Char.ofNat 0xc7], ['C']),
  ([Char.ofNat 0x2013], ['-']),
  ([Char.ofNat 0x2014], ['-']),
  ([Char.ofNat 0x22], [Char.ofNat 0x22]),
  ([Char.ofNat 0x3a, ' ', Char.ofNat 0x22, Char.ofNat 0x27, Char.ofNat 0x22,
    Char.ofNat 0x2c, ' '], [Char.ofNat 0x27]),
  ([Char.ofNat 0x2026], ['.', '.', '.'])]

/-- Substitution table of `convert_umlauts` in create_icom_sota_csv.py,
transcribed code point for code point: the keys in that file are mojibake
(the UTF-8 bytes of the intended letters misdecoded as Mac-Roman), e.g.
U+221A U+00A7 where the sibling scripts have U+00E4 for a-umlaut. -/
def umlaut_map_sota : List (List Char × List Char) :=
  [([Char.ofNat 0x221a, Char.ofNat 0xa7], ['a', 'e']),
  ([Char.ofNat 0x221a, Char.ofNat 0xd1], ['A', 'e']),
  ([Char.ofNat 0x221a, Char.ofNat 0x2202], ['o', 'e']),
  ([Char.ofNat 0x221a, Char.ofNat 0xf1], ['O', 'e']),
  ([Char.ofNat 0x221a, Char.ofNat 0xba], ['u', 'e']),
  ([Char.ofNat 0x221a, Char.ofNat 0xfa], ['U', 'e']),
  ([Char.ofNat 0x221a, Char.ofNat 0xfc], ['s', 's']),
  ([Char.ofNat 0x221a, Char.ofNat 0xa9], ['e']),
  ([Char.ofNat 0x221a, Char.ofNat 0xe2], ['E']),
  ([Char.ofNat 0x221a, Char.ofNat 0xae], ['e']),
  ([Char.ofNat 0x221a, Char.ofNat 0xe0], ['E']),
  ([Char.ofNat 0x221a, Char.ofNat 0xb0], ['a']),
  ([Char.ofNat 0x221a, Char.ofNat 0xc5], ['A']),
  ([Char.ofNat 0x221a, Char.ofNat 0x2020], ['a']),
  ([Char.ofNat 0x221a, Char.ofNat 0xc4], ['A']),
  ([Char.ofNat 0x221a, Char.ofNat 0x2260], ['i']),
  ([Char.ofNat 0x221a, Char.ofNat 0xe7], ['I']),
  ([Char.ofNat 0x221a, Char.ofNat 0xa8], ['i']),
  ([Char.ofNat 0x221a, Char.ofNat 0xe5], ['I']),
  ([Char.ofNat 0x221a, Char.ofNat 0x2265], ['o']),
  ([Char.ofNat 0x221a, Char.ofNat 0xec], ['O']),
  ([Char.ofNat 0x221a, Char.ofNat 0x2264], ['o']),
  ([Char.ofNat 0x221a, Char.ofNat 0xed], ['O']),
  ([Char.ofNat 0x221a, Char.ofNat 0x222b], ['u']),
  ([Char.ofNat 0x221a, Char.ofNat 0xf6], ['U']),
  ([Char.ofNat 0x221a, Char.ofNat 0x3c0], ['u']),
  ([Char.ofNat 0x221a, Char.ofNat 0xf4], ['U']),
  ([Char.ofNat 0x221a, Char.ofNat 0xb1], ['n']),
  ([Char.ofNat 0x221a, Char.ofNat 0xeb], ['N']),
  ([Char.ofNat 0x221a, Char.ofNat 0xdf], ['c']),
  ([Char.ofNat 0x221a, Char.ofNat 0xe1], ['C']),
  ([Char.ofNat 0x201a, Char.ofNat 0xc4, Char.ofNat 0xec], ['-']),
  ([Char.ofNat 0x201a, Char.ofNat 0xc4, Char.ofNat 0xee], ['-']),
  ([Char.ofNat 0x22], [Char.ofNat 0x22]),
  ([Char.ofNat 0x3a, ' ', Char.ofNat 0x22, Char.ofNat 0x27, Char.ofNat 0x22,
    Char.ofNat 0x2c, ' '], [Char.ofNat 0x27]),
  ([Char.ofNat 0x192, Char.ofNat 0xe6], ['l']),
  ([Char.ofNat 0x192, Char.ofNat 0x3a9], ['L']),
  ([Char.ofNat 0x2248, Char.ofNat 0xe6], ['z']),
  ([Char.ofNat 0x2248, Char.ofNat 0x3a9], ['Z']),
  ([Char.ofNat 0x192, Char.ofNat 0xe7], ['c']),
  ([Char.ofNat 0x192, Char.ofNat 0xe5], ['C']),
  ([Char.ofNat 0x2248, Char.ofNat 0xb0], ['s']),
  ([Char.ofNat 0x2248, Char.ofNat 0x2020], ['S']),
  ([Char.ofNat 0x221a, Char.ofNat 0x3a9], ['y']),
  ([Char.ofNat 0x221a, Char.ofNat 0xf9], ['Y']),
  ([Char.ofNat 0x2248, Char.ofNat 0x2022], ['t']),
  ([Char.ofNat 0x2248, Char.ofNat 0xa7], ['T']),
  ([Char.ofNat 0x2248, Char.ofNat 0xe0], ['n']),
  ([Char.ofNat 0x2248, Char.ofNat 0xe1], ['N']),
  ([Char.ofNat 0x192, Char.ofNat 0xe8], ['d']),
  ([Char.ofNat 0x192, Char.ofNat 0xe9], ['D']),
  ([Char.ofNat 0x2248, Char.ofNat 0xf4], ['r']),
  ([Char.ofNat 0x2248, Char.ofNat 0xf2], ['R']),
  ([Char.ofNat 0x201a, Char.ofNat 0xc4, Char.ofNat 0xb6], ['.', '.', '.'])]

/-! ## Unicode NFD and the ASCII filter -/

/-- Canonical (NFD) decomposition, from the Unicode character database, for
every non-ASCII code point exercised in this development; code points absent
from the list decompose to themselves, which is correct for all characters
appearing in this file (in particular for the sharp s U+00DF and the
mojibake symbols, none of which have a canonical decomposition). Models
Python `unicodedata.normalize` applied with NFD. -/
def nfdTable : List (Nat × List Char) :=
  [(0xc0, [Char.ofNat 0x41, Char.ofNat 0x300]),
  (0xc1, [Char.ofNat 0x41, Char.ofNat 0x301]),
  (0xc4, [Char.ofNat 0x41, Char.ofNat 0x308]),
  (0xc5, [Char.ofNat 0x41, Char.ofNat 0x30a]),
  (0xc7, [Char.ofNat 0x43, Char.ofNat 0x327]),
  (0xc8, [Char.ofNat 0x45, Char.ofNat 0x300]),
  (0xc9, [Char.ofNat 0x45, Char.ofNat 0x301]),
  (0xcc, [Char.ofNat 0x49, Char.ofNat 0x300]),
  (0xcd, [Char.ofNat 0x49, Char.ofNat 0x301]),
  (0xd1, [Char.ofNat 0x4e, Char.ofNat 0x303]),
  (0xd2, [Char.ofNat 0x4f, Char.ofNat 0x300]),
  (0xd3, [Char.ofNat 0x4f, Char.ofNat 0x301]),
  (0xd4, [Char.ofNat 0x4f, Char.ofNat 0x302]),
  (0xd6, [Char.ofNat 0x4f, Char.ofNat 0x308]),
  (0xd9, [Char.ofNat 0x55, Char.ofNat 0x300]),
  (0xda, [Char.ofNat 0x55, Char.ofNat 0x301]),
  (0xdc, [Char.ofNat 0x55, Char.ofNat 0x308]),
  (0xdd, [Char.ofNat 0x59, Char.ofNat 0x301]),
  (0xe0, [Char.ofNat 0x61, Char.ofNat 0x300]),
  (0xe1, [Char.ofNat 0x61, Char.ofNat 0x301]),
  (0xe2, [Char.ofNat 0x61, Char.ofNat 0x302]),
  (0xe4, [Char.ofNat 0x61, Char.ofNat 0x308]),
  (0xe5, [Char.ofNat 0x61, Char.ofNat 0x30a]),
  (0xe6, [Char.ofNat 0xe6]),
  (0xe7, [Char.ofNat 0x63, Char.ofNat 0x327]),
  (0xe8, [Char.ofNat 0x65, Char.ofNat 0x300]),
  (0xe9, [Char.ofNat 0x65, Char.ofNat 0x301]),
  (0xeb, [Char.ofNat 0x65, Char.ofNat 0x308]),
  (0xec, [Char.ofNat 0x69, Char.ofNat 0x300]),
  (0xed, [Char.ofNat 0x69, Char.ofNat 0x301]),
  (0xee, [Char.ofNat 0x69, Char.ofNat 0x302]),
  (0xf1, [Char.ofNat 0x6e, Char.ofNat 0x303]),
  (0xf2, [Char.ofNat 0x6f, Char.ofNat 0x300]),
  (0xf3, [Char.ofNat 0x6f, Char.ofNat 0x301]),
  (0xf4, [Char.ofNat 0x6f, Char.ofNat 0x302]),
  (0xf6, [Char.ofNat 0x6f, Char.ofNat 0x308]),
  (0xf9, [Char.ofNat 0x75, Char.ofNat 0x300]),
  (0xfa, [Char.ofNat 0x75, Char.ofNat 0x301]),
  (0xfc, [Char.ofNat 0x75, Char.ofNat 0x308]),
  (0xfd, [Char.ofNat 0x79, Char.ofNat 0x301]),
  (0x10c, [Char.ofNat 0x43, Char.ofNat 0x30c]),
  (0x10d, [Char.ofNat 0x63, Char.ofNat 0x30c]),
  (0x10e, [Char.ofNat 0x44, Char.ofNat 0x30c]),
  (0x10f, [Char.ofNat 0x64, Char.ofNat 0x30c]),
  (0x13d, [Char.ofNat 0x4c, Char.ofNat 0x30c]),
  (0x13e, [Char.ofNat 0x6c, Char.ofNat 0x30c]),
  (0x147, [Char.ofNat 0x4e, Char.ofNat 0x30c]),
  (0x148, [Char.ofNat 0x6e, Char.ofNat 0x30c]),
  (0x158, [Char.ofNat 0x52, Char.ofNat 0x30c]),
  (0x159, [Char.ofNat 0x72, Char.ofNat 0x30c]),
  (0x160, [Char.ofNat 0x53, Char.ofNat 0x30c]),
  (0x161, [Char.ofNat 0x73, Char.ofNat 0x30c]),
  (0x164, [Char.ofNat 0x54, Char.ofNat 0x30c]),
  (0x165, [Char.ofNat 0x74, Char.ofNat 0x30c]),
  (0x17d, [Char.ofNat 0x5a, Char.ofNat 0x30c]),
  (0x17e, [Char.ofNat 0x7a, Char.ofNat 0x30c])]

/-- NFD decomposition of one character. -/
def nfdChar (c : Char) : List Char :=
  match nfdTable.lookup c.toNat with
  | some l => l
  | none => [c]

/-- `unicodedata.normalize` applied with NFD, over the characters modeled in
`nfdTable`. -/
def nfd (s : List Char) : List Char :=
  (s.map nfdChar).flatten

/-- The comprehension dropping every character with code point >= 128. -/
def asciiOnly (s : List Char) : List Char :=
  s.filter (fun c => c.toNat < 128)

/-! ## The three copies of the text normalizer -/

namespace PotaApi

/-- `convert_umlauts` of create_pota_parks_api.py and generate_gps_data.py:
the table only, with no NFD pass. -/
def convert_umlauts (text : List Char) : List Char :=
  applyUmlautMap umlaut_map_api text

end PotaApi

namespace FixUmlauts

/-- `convert_umlauts` of fix_umlauts.py: the German/Romance table, then NFD,
then the ASCII filter. -/
def convert_umlauts (text : List Char) : List Char :=
  asciiOnly (nfd (applyUmlautMap umlaut_map_fix text))

end FixUmlauts

namespace SotaCsv

/-- `convert_umlauts` of create_icom_sota_csv.py: the mojibake table, then
NFD, then the ASCII filter. -/
def convert_umlauts (text : List Char) : List Char :=
  asciiOnly (nfd (applyUmlautMap umlaut_map_sota text))

end SotaCsv

example : PotaApi.convert_umlauts [Char.ofNat 0xe4] = ['a', 'e'] := by decide
example : FixUmlauts.convert_umlauts [Char.ofNat 0x161] = ['s'] := by decide
example : SotaCsv.convert_umlauts [Char.ofNat 0xe4] = ['a'] := by decide
example : SotaCsv.convert_umlauts [Char.ofNat 0xdf] = [] := by decide

/-! ## The grid geocoders -/

/-- Python `int(c)` on a one-character string: the value when `c` is a
decimal digit, failure otherwise (modeled over the ASCII digits; the
scripts only feed grid locator characters through it). -/
def pyInt? (c : Char) : Option ℤ :=
  if 48 ≤ c.toNat ∧ c.toNat ≤ 57 then some ((c.toNat : ℤ) - 48) else none

/-- Python `round(x, 6)`: round to six decimal places. The scripts only
round values whose scaled fractional part is never exactly 1/2 (all results
are multiples of 1/240 of a degree), so half-even versus half-up is never
exercised and rounding to nearest is an exact model. -/
def round6 (q : ℚ) : ℚ :=
  ((q * 1000000 + 1 / 2).floor : ℚ) / 1000000

namespace PotaApi

/-- `maidenhead_to_latlon` of create_pota_parks_api.py. Returns
`(latitude, longitude)` as the source does. The `try`/`except
(ValueError, IndexError)` around the body can only fire at the `int()`
calls (positions 2, 3 and, for length at least 8, 6 and 7); a failing
`int()` yields `none`. -/
def maidenhead_to_latlon (grid : List Char) : Option (ℚ × ℚ) :=
  if grid = [] ∨ grid.length < 4 then none
  else
    let g := grid.map pyUpper
    let lon_field : ℚ := (((g.getD 0 ' ').toNat : ℤ) - 65) * 20 - 180
    let lat_field : ℚ := (((g.getD 1 ' ').toNat : ℤ) - 65) * 10 - 90
    match pyInt? (g.getD 2 ' '), pyInt? (g.getD 3 ' ') with
    | some d2, some d3 =>
      let lon_square : ℚ := (d2 : ℚ) * 2
      let lat_square : ℚ := (d3 : ℚ) * 1
      let lon_subsquare : ℚ :=
        if 6 ≤ g.length then (((g.getD 4 ' ').toNat : ℤ) - 65) * (5 / 60) else 0
      let lat_subsquare : ℚ :=
        if 6 ≤ g.length then (((g.getD 5 ' ').toNat : ℤ) - 65) * (2.5 / 60) else 0
      let ext? : Option (ℚ × ℚ) :=
        if 8 ≤ g.length then
          match pyInt? (g.getD 6 ' '), pyInt? (g.getD 7 ' ') with
          | some d6, some d7 => some ((d6 : ℚ) * (0.5 / 60), (d7 : ℚ) * (0.25 / 60))
          | _, _ => none
        else some (0, 0)
      match ext? with
      | none => none
      | some (lon_extended, lat_extended) =>
        some (round6 (lat_field + lat_square + lat_subsquare + lat_extended + 1.25 / 60),
              round6 (lon_field + lon_square + lon_subsquare + lon_extended + 1 / 60))
    | _, _ => none

end PotaApi

namespace GenGps

/-- `maidenhead_to_gps` of generate_gps_data.py. Digits are read with
`ord(c) - ord('0')` (never `int()`), so after the length check nothing can
raise and no input of length at least 4 is rejected; a center offset of a
half cell is added only below subsquare resolution, and characters beyond
position 5 are ignored. No rounding is applied. -/
def maidenhead_to_gps (grid : List Char) : Option (ℚ × ℚ) :=
  if grid = [] ∨ grid.length < 4 then none
  else
    let g := grid.map pyUpper
    let lon0 : ℚ := (((g.getD 0 ' ').toNat : ℤ) - 65) * 20 - 180 +
      (((g.getD 2 ' ').toNat : ℤ) - 48) * 2
    let lat0 : ℚ := (((g.getD 1 ' ').toNat : ℤ) - 65) * 10 - 90 +
      (((g.getD 3 ' ').toNat : ℤ) - 48) * 1
    if 6 ≤ g.length then
      some (lat0 + (((g.getD 5 ' ').toNat : ℤ) - 65) * (1 / 24),
            lon0 + (((g.getD 4 ' ').toNat : ℤ) - 65) * (2 / 24))
    else
      some (lat0 + 0.5, lon0 + 1)

end GenGps

/-! ## Validity and cell base coordinates, from the claims

The next definitions follow the wording of the specification (letters A-R at
positions 0-1, digits at positions 2-3 and 6-7, letters at positions 4-5,
lengths 4, 6, 8) and the per-position step sizes it states. They are the
comparison side for the geocoder theorems, not translations of the code. -/

/-- A letter A-R (either case), for positions 0-1. -/
def fieldOk (c : Char) : Bool :=
  65 ≤ (pyUpper c).toNat ∧ (pyUpper c).toNat ≤ 82

/-- A decimal digit, for positions 2-3 and 6-7. -/
def digitOk (c : Char) : Bool :=
  48 ≤ c.toNat ∧ c.toNat ≤ 57

/-- A subsquare letter a-x (either case), for positions 4-5. -/
def subsqOk (c : Char) : Bool :=
  65 ≤ (pyUpper c).toNat ∧ (pyUpper c).toNat ≤ 88

/-- A valid Maidenhead locator of length 4, 6 or 8 per the specification's
alphabet. -/
def validMaidenhead (g : List Char) : Bool :=
  match g with
  | [a, b, c, d] => fieldOk a ∧ fieldOk b ∧ digitOk c ∧ digitOk d
  | [a, b, c, d, e, f] =>
      fieldOk a ∧ fieldOk b ∧ digitOk c ∧ digitOk d ∧ subsqOk e ∧ subsqOk f
  | [a, b, c, d, e, f, x, y] =>
      fieldOk a ∧ fieldOk b ∧ digitOk c ∧ digitOk d ∧ subsqOk e ∧ subsqOk f ∧
        digitOk x ∧ digitOk y
  | _ => false

/-- Longitude contribution of a field letter. -/
def lonFieldOf (c : Char) : ℚ := (((pyUpper c).toNat : ℤ) - 65) * 20 - 180

/-- Latitude contribution of a field letter. -/
def latFieldOf (c : Char) : ℚ := (((pyUpper c).toNat : ℤ) - 65) * 10 - 90

/-- Numeric value of a digit character. -/
def digitVal (c : Char) : ℚ := ((c.toNat : ℤ) - 48 : ℤ)

/-- Alphabet index of a subsquare letter. -/
def letterVal (c : Char) : ℚ := (((pyUpper c).toNat : ℤ) - 65 : ℤ)

/-- South-west corner longitude of the smallest cell a locator resolves,
per the specification's per-position step sizes. -/
def baseLon (g : List Char) : ℚ :=
  match g with
  | [a, _, c, _] => lonFieldOf a + digitVal c * 2
  | [a, _, c, _, e, _] => lonFieldOf a + digitVal c * 2 + letterVal e * (5 / 60)
  | [a, _, c, _, e, _, x, _] =>
      lonFieldOf a + digitVal c * 2 + letterVal e * (5 / 60) + digitVal x * (0.5 / 60)
  | _ => 0

/-- South-west corner latitude of the smallest cell a locator resolves,
per the specification's per-position step sizes. -/
def baseLat (g : List Char) : ℚ :=
  match g with
  | [_, b, _, d] => latFieldOf b + digitVal d
  | [_, b, _, d, _, f] => latFieldOf b + digitVal d + letterVal f * (2.5 / 60)
  | [_, b, _, d, _, f, _, y] =>
      latFieldOf b + digitVal d + letterVal f * (2.5 / 60) + digitVal y * (0.25 / 60)
  | _ => 0

example : PotaApi.maidenhead_to_latlon "JN88".data =
    some (48020833 / 1000000, 16016667 / 1000000) := by decide
example : GenGps.maidenhead_to_gps "JN88".data = some (48.5, 17) := by decide
example : GenGps.maidenhead_to_gps "JN88ef".data = some (48 + 5 / 24, 16 + 8 / 24) := by decide
example : PotaApi.maidenhead_to_latlon "SS11".data =
    some (round6 (91 + 1.25 / 60), round6 (182 + 1 / 60)) := by decide

/-! ## The band plan repair of fix_frequency_bands.py -/

namespace FixFreq

/-- The first `if` chain of the loop body of `fix_frequency_bands` (lines
29-37): shift 6m and 10m values into 2m, guess a 6m shift for other low
values above 50, default everything else below 144 to 145.0. -/
def repairShift (frequency : ℚ) : ℚ :=
  if 50 ≤ frequency ∧ frequency ≤ 54 then frequency + 94
  else if 28 ≤ frequency ∧ frequency ≤ 29.7 then frequency + 116
  else if frequency < 144 then
    (if 50 < frequency then frequency + 94 else 145.0)
  else frequency

/-- The second `if` chain of the loop body (lines 40-57): keep values inside
a supported band or above 2000, keep 400-500, send every other value below
200 (and any remaining value) to 145.0. -/
def repairClamp (frequency : ℚ) : ℚ :=
  if 144 ≤ frequency ∧ frequency ≤ 146 then frequency
  else if 430 ≤ frequency ∧ frequency ≤ 440 then frequency
  else if 1240 ≤ frequency ∧ frequency ≤ 1300 then frequency
  else if 2300 ≤ frequency ∧ frequency ≤ 2450 then frequency
  else if 2000 < frequency then frequency
  else if frequency < 200 then 145.0
  else if 400 ≤ frequency ∧ frequency ≤ 500 then frequency
  else 145.0

/-- The complete per-frequency transformation of `fix_frequency_bands`:
what the specification calls `repair`. -/
def repair (frequency : ℚ) : ℚ :=
  repairClamp (repairShift frequency)

/-- A row of the Icom CSV that `fix_frequency_bands` rewrites: the parse
result of its `Frequency` field (`none` when `float()` raises) paired with
the rest of the row. -/
abbrev FreqRow (α : Type) : Type := Option ℚ × α

/-- The loop of `fix_frequency_bands` (lines 23-69): a row whose
`Frequency` parses is written with the repaired value; a row whose parse
raises lands in the `except` handler, which writes the row unchanged
(after printing a warning) and continues with the next row. -/
def fix_frequency_bands {α : Type} : List (FreqRow α) → List (FreqRow α)
  | [] => []
  | (some f, a) :: rest => (some (repair f), a) :: fix_frequency_bands rest
  | (none, a) :: rest => (none, a) :: fix_frequency_bands rest

end FixFreq

example : FixFreq.repair 145.5 = 145.5 := by decide
example : FixFreq.repair 51.0 = 145.0 := by decide
example : FixFreq.repair 29.0 = 145.0 := by decide
example : FixFreq.repair 53 = 145.0 := by decide
example : FixFreq.repair 52 = 146 := by decide

/-! ## The FM channel projector of create_icom_fm_csv.py -/

/-- The parse status of a numeric CSV field: `num q` when Python `float(…)`
on the field (with the script's `row.get` default) returns `q`, `bad` when
it raises. -/
inductive FloatField where
  | num (q : ℚ)
  | bad
deriving DecidableEq, Repr

/-- One output row in the shared Icom channel schema. Fields the projectors
emit as empty strings in numeric columns are modeled as `none`. The textual
`Repeater Tone` column `f"{tone_freq}Hz"` is modeled by its numeric part. -/
structure IcomRow where
  groupNo : ℤ
  groupName : List Char
  name : List Char
  subName : List Char
  repeaterCallSign : List Char
  gatewayCallSign : List Char
  frequency : Option ℚ
  dup : List Char
  offset : Option ℚ
  mode : List Char
  tone : List Char
  repeaterTone : ℚ
  rpt1use : List Char
  position : List Char
  latitude : ℚ
  longitude : ℚ
  utcOffset : List Char
deriving DecidableEq, Repr

namespace FmCsv

/-- One input row of `convert_mcp_to_icom_fm_format`, carrying the parsed
form of exactly the fields the script reads. `fm` holds
`row.get('fm', 'True')`, `freq` the argument of the `float()` call
`float(row.get('freq_rx', row.get('freq_tx', 0)))`, `offset` that of
`float(row.get('offset', 0))`, `ctcss_tx` is `none` when
`row.get('ctcss_tx', '')` is empty and otherwise the parse of the text. -/
structure McpRow where
  country : List Char
  fm : List Char
  freq : FloatField
  offset : FloatField
  dup : List Char
  ctcss_tx : Option FloatField
  loc_exact : List Char
  lat : FloatField
  long : FloatField
  name : List Char
  landmark : List Char
  callsign : List Char
deriving DecidableEq, Repr

/-- Lines 44-57 of create_icom_fm_csv.py: the duplex symbol and offset.
The inner `try` wraps the `float()` of the offset, so an unparsable offset
lands in the `except` and forces `('', 0)` regardless of direction; with a
parsed offset the direction decides the symbol, and any direction other
than `+`/`-` forces the offset to `0`. -/
def dupAndOffset (offsetField : FloatField) (dupDir : List Char) :
    List Char × ℚ :=
  match offsetField with
  | .bad => ([], 0)
  | .num v =>
    if dupDir = ['+'] then ("DUP+".data, v)
    else if dupDir = ['-'] then ("DUP-".data, v)
    else ([], 0)

/-- The loop body of `convert_mcp_to_icom_fm_format` for one row: `none`
when the row is filtered out (wrong country, not FM) or hits the outer
`except` (unparsable frequency); otherwise the emitted Icom row. -/
def convertFmRow (groupNumber : ℤ) (groupName : List Char)
    (countryFilter : Option (List Char)) (row : McpRow) : Option IcomRow :=
  if (match countryFilter with
      | some c => decide (row.country ≠ c)
      | none => false) then none
  else if row.fm.map pyLower ≠ "true".data then none
  else match row.freq with
  | .bad => none
  | .num frequency =>
    let do_ := dupAndOffset row.offset row.dup
    let tone := match row.ctcss_tx with
      | some (.num t) => ("TONE".data, t)
      | some .bad => ("OFF".data, (88.5 : ℚ))
      | none => ("OFF".data, (88.5 : ℚ))
    let position :=
      if row.loc_exact.map pyLower = "true".data then "Exact".data
      else "Approximate".data
    let latitude : ℚ := match row.lat with | .num v => v | .bad => 0
    let longitude : ℚ := match row.long with | .num v => v | .bad => 0
    let utc :=
      if countryFilter = some "Singapore".data then "+8:00".data
      else if countryFilter = some "Japan".data then "+9:00".data
      else "+1:00".data
    some
      { groupNo := groupNumber
        groupName := groupName
        name := pyStrip row.name
        subName := pyStrip row.landmark
        repeaterCallSign := pyStrip row.callsign
        gatewayCallSign := []
        frequency := some frequency
        dup := do_.1
        offset := some do_.2
        mode := "FM".data
        tone := tone.1
        repeaterTone := tone.2
        rpt1use := if tone.1 ≠ "OFF".data then "YES".data else "NO".data
        position := position
        latitude := latitude
        longitude := longitude
        utcOffset := utc }

/-- `convert_mcp_to_icom_fm_format`: rows that are filtered out or whose
frequency fails to parse contribute nothing; the loop continues with the
remaining rows. -/
def convert_mcp_to_icom_fm_format (groupNumber : ℤ) (groupName : List Char)
    (countryFilter : Option (List Char)) : List McpRow → List IcomRow
  | [] => []
  | row :: rest =>
    match convertFmRow groupNumber groupName countryFilter row with
    | some out => out :: convert_mcp_to_icom_fm_format groupNumber groupName countryFilter rest
    | none => convert_mcp_to_icom_fm_format groupNumber groupName countryFilter rest

end FmCsv

/-! ## The SOTA projector of create_icom_sota_csv.py -/

namespace SotaCsv

/-- The parse of `row.get('sea_level', '').strip()` as used on lines
109-114: `empty` when the stripped field is empty (the `if elevation:`
guard), `num z` when `int(float(elevation))` yields `z`, `bad` when the
conversion raises (swallowed by the bare `except`). -/
inductive ElevField where
  | empty
  | num (z : ℤ)
  | bad
deriving DecidableEq, Repr

/-- One input row of `convert_sota_to_icom_format`, carrying the parsed
form of exactly the fields the script reads. -/
structure SotaRow where
  lat : FloatField
  long : FloatField
  callsign : List Char
  name : List Char
  state : List Char
  country_code : List Char
  sea_level : ElevField
deriving DecidableEq, Repr

/-- Decimal digits of a natural number. -/
def natDigits : Nat → List Char
  | n =>
    if h : n < 10 then [Char.ofNat (48 + n)]
    else natDigits (n / 10) ++ [Char.ofNat (48 + n % 10)]
decreasing_by exact Nat.div_lt_self (by omega) (by omega)

/-- Python `str(z)` for an integer, as used by `f"{elev_m}m"`. -/
def intStr (z : ℤ) : List Char :=
  if z < 0 then '-' :: natDigits z.natAbs else natDigits z.natAbs

/-- Python `" ".join(parts)`. -/
def joinSpace : List (List Char) → List Char
  | [] => []
  | [p] => p
  | p :: rest => p ++ ' ' :: joinSpace rest

/-- Lines 97-103: the `name` local, built from the stripped callsign and
the summit name cut to 10 characters (before any normalization). -/
def sotaName (row : SotaRow) : List Char :=
  if pyStrip row.name ≠ [] then
    pyStrip row.callsign ++ ' ' :: (pyStrip row.name).take 10
  else pyStrip row.callsign

/-- Lines 105-114: the `sub_parts` local: the state cut to 8 characters and
normalized (in that order), then the elevation in meters when it parses. -/
def sotaSubParts (row : SotaRow) : List (List Char) :=
  (if pyStrip row.state ≠ [] then
    [convert_umlauts ((pyStrip row.state).take 8)]
  else []) ++
  (match row.sea_level with
   | ElevField.num z => [intStr z ++ ['m']]
   | _ => [])

/-- Line 116: the `sub_name` local. -/
def sotaSubName (row : SotaRow) : List Char :=
  if sotaSubParts row ≠ [] then joinSpace (sotaSubParts row)
  else pyStrip row.country_code

/-- The loop body of `convert_sota_to_icom_format` (lines 80-149) for one
row: `none` when the row is skipped (unparsable or zero coordinate, empty
callsign), otherwise the emitted GPS waypoint row; the Python locals
`name`, `sub_parts`, `sub_name` are the helper functions above. Note the
order of operations on the display text: the summit name is cut to 10
characters and the state to 8 before `convert_umlauts` runs, and the final
fields are cut to 16 characters after it. -/
def convertSotaRow (groupNumber : ℤ) (groupName : List Char)
    (row : SotaRow) : Option IcomRow :=
  match row.lat, row.long with
  | FloatField.num lat, FloatField.num lon =>
    if lat = 0 ∨ lon = 0 then none
    else if pyStrip row.callsign = [] then none
    else
      some
        { groupNo := groupNumber
          groupName := groupName
          name := (convert_umlauts (sotaName row)).take 16
          subName := (convert_umlauts (sotaSubName row)).take 16
          repeaterCallSign := []
          gatewayCallSign := []
          frequency := none
          dup := []
          offset := none
          mode := "GPS".data
          tone := []
          repeaterTone := 0
          rpt1use := []
          position := "Exact".data
          latitude := lat
          longitude := lon
          utcOffset :=
            if pyStrip row.country_code = "SGP".data then "+8:00".data
            else "+1:00".data }
  | _, _ => none

/-- `convert_sota_to_icom_format`: skipped rows contribute nothing, the
loop continues. -/
def convert_sota_to_icom_format (groupNumber : ℤ) (groupName : List Char) :
    List SotaRow → List IcomRow
  | [] => []
  | row :: rest =>
    match convertSotaRow groupNumber groupName row with
    | some out => out :: convert_sota_to_icom_format groupNumber groupName rest
    | none => convert_sota_to_icom_format groupNumber groupName rest

end SotaCsv

namespace SotaGps

/-- The row filter of `create_sota_gps_files` in create_sota_gps_format.py
(and its twin in generate_gps_data.py), line 121-125 of the former: after
`name`, `lat` and `long` are read, `if not name or lat == 0 or lon == 0:
continue`. `true` means the summit is kept. -/
def sotaGpsRowKept (name : List Char) (lat lon : ℚ) : Bool :=
  ¬(name = [] ∨ lat = 0 ∨ lon = 0)

end SotaGps

/-! ## The Vienna FM radio deduplicator/ranker of
create_icom_vienna_radio_csv.py -/

namespace Vienna

/-- One input row of `convert_vienna_radio_to_icom_format`, carrying the
parsed form of exactly the fields the script reads (`freq_rx` is accessed
with `row['freq_rx']`, so a missing column raises like an unparsable one
and is covered by `bad`). -/
structure ViennaRow where
  lat : FloatField
  long : FloatField
  freq_rx : FloatField
  name : List Char
  landmark : List Char
  state : List Char
  loc_exact : List Char
deriving DecidableEq, Repr

/-- One collected station dict (lines 98-106). -/
structure Station where
  score : ℚ
  name : List Char
  sub_name : List Char
  frequency : ℚ
  lat : ℚ
  lon : ℚ
  loc_exact : Bool
deriving DecidableEq, Repr

/-- The dedup key (line 83): `station_name.lower().replace(' ', '')`. -/
def station_key (name : List Char) : List Char :=
  (name.map pyLower).filter (fun c => c ≠ ' ')

/-- Python `str(q)` placeholder for the `f"FM {frequency}"` fallback name
of a station with an empty name (line 80); Python float formatting is
approximated by the Lean rational printer, which agrees on whole values up
to the trailing `.0`. No claim exercises this branch. -/
def ratStr (q : ℚ) : List Char :=
  (toString q.num).data ++ (if q.den = 1 then [] else '/' :: (toString q.den).data)

/-- The per-row work of the collection loop (lines 53-112), minus the
dedup bookkeeping: `none` when the row is skipped for a reason other than
deduplication (parse error, distance over 150, frequency outside the 87.5
to 108 broadcast band), otherwise the station dict that would be appended.
`dist` abstracts `calculate_distance(vienna_lat, vienna_lon, lat, lon)`
(an exact embedding of the haversine trigonometry is not possible over
`ℚ`), and `prio` abstracts `priority_stations.get(station_name, 0)`. -/
def viennaStation (dist : ℚ → ℚ → ℚ) (prio : List Char → ℚ)
    (row : ViennaRow) : Option Station :=
  match row.lat, row.long with
  | FloatField.num lat, FloatField.num lon =>
    let distance := dist lat lon
    if 150 < distance then none
    else match row.freq_rx with
      | FloatField.bad => none
      | FloatField.num frequency =>
        if ¬(87.5 ≤ frequency ∧ frequency ≤ 108.0) then none
        else
          let station_name :=
            if pyStrip row.name = [] then "FM ".data ++ ratStr frequency
            else pyStrip row.name
          some
            { score := prio station_name + max 0 (50 - distance)
              name := station_name
              sub_name :=
                if pyStrip row.landmark ≠ [] then pyStrip row.landmark
                else if pyStrip row.state ≠ [] then pyStrip row.state
                else "Austria".data
              frequency := frequency
              lat := lat
              lon := lon
              loc_exact := row.loc_exact.map pyLower = "true".data }
  | _, _ => none

/-- The collection loop of `convert_vienna_radio_to_icom_format` (lines
50-112): `seen_stations` is the set of keys already taken; a row whose key
is already seen is dropped, a new key is recorded and its first station
kept, in input order. -/
def viennaCollect (dist : ℚ → ℚ → ℚ) (prio : List Char → ℚ)
    (seen : List (List Char)) : List ViennaRow → List Station
  | [] => []
  | row :: rest =>
    match viennaStation dist prio row with
    | none => viennaCollect dist prio seen rest
    | some st =>
      if station_key st.name ∈ seen then viennaCollect dist prio seen rest
      else st :: viennaCollect dist prio (station_key st.name :: seen) rest

/-- The descending score order used by
`stations.sort(key=lambda x: x['score'], reverse=True)`. -/
def scoreGE (a b : Station) : Prop := b.score ≤ a.score

instance : DecidableRel scoreGE := fun a b =>
  inferInstanceAs (Decidable (b.score ≤ a.score))

/-- Lines 114-116: the stable descending sort and the cut to the top 50.
CPython's `list.sort` is a stable sort; any stable sort computes the same
list, and `List.insertionSort` is the executable stable sort used here. -/
def rankedStations (dist : ℚ → ℚ → ℚ) (prio : List Char → ℚ)
    (rows : List ViennaRow) : List Station :=
  ((viennaCollect dist prio [] rows).insertionSort scoreGE).take 50

/-- The output row written for one station (lines 124-146): the station
name and sub name are emitted as stored, with no normalization and no
truncation. -/
def viennaEmit (groupNumber : ℤ) (groupName : List Char)
    (st : Station) : IcomRow :=
  { groupNo := groupNumber
    groupName := groupName
    name := st.name
    subName := st.sub_name
    repeaterCallSign := []
    gatewayCallSign := []
    frequency := some st.frequency
    dup := []
    offset := some 0
    mode := "FM".data
    tone := "OFF".data
    repeaterTone := 88.5
    rpt1use := "NO".data
    position := if st.loc_exact then "Exact".data else "Approximate".data
    latitude := st.lat
    longitude := st.lon
    utcOffset := "+1:00".data }

/-- `convert_vienna_radio_to_icom_format`. -/
def convert_vienna_radio_to_icom_format (dist : ℚ → ℚ → ℚ)
    (prio : List Char → ℚ) (groupNumber : ℤ) (groupName : List Char)
    (rows : List ViennaRow) : List IcomRow :=
  (rankedStations dist prio rows).map (viennaEmit groupNumber groupName)

end Vienna

/-! ## Helper lemmas for the band plan repair -/

/-- The range of `FixFreq.repairClamp`: a supported band, the kept 400-500
window, anything above 2000, or the 145.0 default. -/
def inSupported (g : ℚ) : Prop :=
  (144 ≤ g ∧ g ≤ 146) ∨ (400 ≤ g ∧ g ≤ 500) ∨ (1240 ≤ g ∧ g ≤ 1300) ∨
    (2300 ≤ g ∧ g ≤ 2450) ∨ 2000 < g ∨ g = 145

theorem repairClamp_inSupported (g : ℚ) : inSupported (FixFreq.repairClamp g) := by
  unfold FixFreq.repairClamp inSupported
  split_ifs with a1 a2 a3 a4 a5 a6 a7
  · exact Or.inl a1
  · exact Or.inr (Or.inl ⟨by linarith [a2.1], by linarith [a2.2]⟩)
  · exact Or.inr (Or.inr (Or.inl a3))
  · exact Or.inr (Or.inr (Or.inr (Or.inl a4)))
  · exact Or.inr (Or.inr (Or.inr (Or.inr (Or.inl a5))))
  · exact Or.inr (Or.inr (Or.inr (Or.inr (Or.inr (by norm_num)))))
  · exact Or.inr (Or.inl a7)
  · exact Or.inr (Or.inr (Or.inr (Or.inr (Or.inr (by norm_num)))))

theorem repair_inSupported (f : ℚ) : inSupported (FixFreq.repair f) :=
  repairClamp_inSupported _

theorem repairShift_of_ge (g : ℚ) (hge : 144 ≤ g) :
    FixFreq.repairShift g = g := by
  unfold FixFreq.repairShift
  split_ifs with h1 h2 h3 h4
  · linarith [h1.2]
  · linarith [h2.2]
  · linarith
  · linarith
  · rfl

theorem inSupported_ge (g : ℚ) (h : inSupported g) : 144 ≤ g := by
  rcases h with ⟨u, -⟩ | ⟨u, -⟩ | ⟨u, -⟩ | ⟨u, -⟩ | u | rfl <;> linarith

theorem repairClamp_of_inSupported (g : ℚ) (h : inSupported g) :
    FixFreq.repairClamp g = g := by
  unfold FixFreq.repairClamp
  split_ifs with a1 a2 a3 a4 a5 a6 a7
  · rfl
  · rfl
  · rfl
  · rfl
  · rfl
  · rcases h with ⟨u, v⟩ | ⟨u, v⟩ | ⟨u, v⟩ | ⟨u, v⟩ | u | rfl
    · exact absurd (And.intro u v) a1
    · linarith
    · linarith
    · linarith
    · exact absurd u a5
    · norm_num
  · rfl
  · rcases h with ⟨u, v⟩ | ⟨u, v⟩ | ⟨u, v⟩ | ⟨u, v⟩ | u | rfl
    · exact absurd (And.intro u v) a1
    · exact absurd (And.intro u v) a7
    · exact absurd (And.intro u v) a3
    · exact absurd (And.intro u v) a4
    · exact absurd u a5
    · norm_num

theorem repair_of_inSupported (g : ℚ) (h : inSupported g) :
    FixFreq.repair g = g := by
  unfold FixFreq.repair
  rw [repairShift_of_ge g (inSupported_ge g h), repairClamp_of_inSupported g h]

theorem repairShift_6m (f : ℚ) (h1 : 50 ≤ f) (h2 : f ≤ 54) :
    FixFreq.repairShift f = f + 94 := by
  unfold FixFreq.repairShift
  rw [if_pos ⟨h1, h2⟩]

theorem repairShift_10m (f : ℚ) (h1 : 28 ≤ f) (h2 : f ≤ 29.7) :
    FixFreq.repairShift f = f + 116 := by
  unfold FixFreq.repairShift
  rw [if_neg (fun hc => by linarith [hc.1]), if_pos ⟨h1, h2⟩]

theorem repairClamp_2m (g : ℚ) (h1 : 144 ≤ g) (h2 : g ≤ 146) :
    FixFreq.repairClamp g = g := by
  unfold FixFreq.repairClamp
  rw [if_pos ⟨h1, h2⟩]

theorem repairClamp_low_default (g : ℚ) (h1 : 146 < g) (h2 : g < 200) :
    FixFreq.repairClamp g = 145.0 := by
  unfold FixFreq.repairClamp
  rw [if_neg (fun hc => by linarith [hc.2]), if_neg (fun hc => by linarith [hc.1]),
    if_neg (fun hc => by linarith [hc.1]), if_neg (fun hc => by linarith [hc.1]),
    if_neg (fun hc => by linarith), if_pos h2]

/-! ## Claim theorems -/

/-- C6: `repair` is idempotent (`repair (repair f) = repair f` for every
frequency `f`), and `repair 145.5 = 145.5`, `repair 51.0 = 145.0`,
`repair 29.0 = 145.0`. -/
theorem repair_idempotent :
    (∀ f : ℚ, FixFreq.repair (FixFreq.repair f) = FixFreq.repair f) ∧
      FixFreq.repair 145.5 = 145.5 ∧ FixFreq.repair 51.0 = 145.0 ∧
      FixFreq.repair 29.0 = 145.0 :=
  ⟨fun f => repair_of_inSupported _ (repair_inSupported f),
   by decide, by decide, by decide⟩

/-- C2 counterexample: at `f = 53`, inside the claimed 6m range 50-54, the
final value written by the repair is the 145.0 fallback, not
`f + 94 = 147`: the shifted value 147 falls outside the 2m band 144-146 and
is caught by the second `if` chain. -/
theorem freq_shift_cex :
    FixFreq.repair 53 = 145 ∧ (53 : ℚ) + 94 = 147 ∧ (145 : ℚ) ≠ 147 := by
  decide

/-- C2 amended: for 50 <= f <= 52 the repair returns `f + 94`, which lies in
the 2m band 144-146; for 52 < f <= 54 the shifted value exceeds 146 and the
repair instead returns the 145.0 default; for 28 <= f <= 29.7 the repair
returns `f + 116`, which lies in the 2m band. -/
theorem freq_shift_amended (f : ℚ) :
    (50 ≤ f → f ≤ 52 →
      FixFreq.repair f = f + 94 ∧ 144 ≤ f + 94 ∧ f + 94 ≤ 146) ∧
    (52 < f → f ≤ 54 → FixFreq.repair f = 145.0) ∧
    (28 ≤ f → f ≤ 29.7 →
      FixFreq.repair f = f + 116 ∧ 144 ≤ f + 116 ∧ f + 116 ≤ 146) := by
  refine ⟨fun h1 h2 => ?_, fun h1 h2 => ?_, fun h1 h2 => ?_⟩
  · unfold FixFreq.repair
    rw [repairShift_6m f h1 (by linarith)]
    rw [repairClamp_2m (f + 94) (by linarith) (by linarith)]
    exact ⟨rfl, by linarith, by linarith⟩
  · unfold FixFreq.repair
    rw [repairShift_6m f (by linarith) h2]
    exact repairClamp_low_default (f + 94) (by linarith) (by linarith)
  · unfold FixFreq.repair
    rw [repairShift_10m f h1 h2]
    rw [repairClamp_2m (f + 116) (by linarith) (by linarith)]
    exact ⟨rfl, by linarith, by linarith⟩

/-- C2 amended witness: the amended statement evaluated at 51, 53 and 29. -/
theorem freq_shift_amended_witness :
    FixFreq.repair 51 = 51 + 94 ∧ FixFreq.repair 53 = 145.0 ∧
      FixFreq.repair 29 = 29 + 116 :=
  ⟨((freq_shift_amended 51).1 (by norm_num) (by norm_num)).1,
   (freq_shift_amended 53).2.1 (by norm_num) (by norm_num),
   ((freq_shift_amended 29).2.2 (by norm_num) (by norm_num)).1⟩

/-- The substitution claimed by the specification for each supported
diacritic, as stated there: a comparison table, not a translation of any
one script. -/
def claimDiacriticTable : List (Char × List Char) :=
  [(Char.ofNat 0xe4, ['a', 'e']), (Char.ofNat 0xc4, ['A', 'e']),
   (Char.ofNat 0xf6, ['o', 'e']), (Char.ofNat 0xd6, ['O', 'e']),
   (Char.ofNat 0xfc, ['u', 'e']), (Char.ofNat 0xdc, ['U', 'e']),
   (Char.ofNat 0xdf, ['s', 's']),
   (Char.ofNat 0x161, ['s']), (Char.ofNat 0x160, ['S']),
   (Char.ofNat 0x10d, ['c']), (Char.ofNat 0x10c, ['C']),
   (Char.ofNat 0x17e, ['z']), (Char.ofNat 0x17d, ['Z']),
   (Char.ofNat 0x159, ['r']), (Char.ofNat 0x158, ['R']),
   (Char.ofNat 0x13e, ['l']), (Char.ofNat 0x13d, ['L']),
   (Char.ofNat 0x165, ['t']), (Char.ofNat 0x164, ['T']),
   (Char.ofNat 0x10f, ['d']), (Char.ofNat 0x10e, ['D']),
   (Char.ofNat 0x148, ['n']), (Char.ofNat 0x147, ['N']),
   (Char.ofNat 0xf4, ['o']), (Char.ofNat 0xd4, ['O']),
   (Char.ofNat 0xfd, ['y']), (Char.ofNat 0xdd, ['Y'])]

/-- C5 (code bug): the normalizer copies in create_pota_parks_api.py /
generate_gps_data.py and in fix_umlauts.py map every supported diacritic
exactly as the fixed table states, but the copy in create_icom_sota_csv.py
does not: its table keys are mojibake, so the umlauts fall through to the
NFD pass and lose their e (a-umlaut becomes `a`, not `ae`), and the sharp s
is deleted outright instead of becoming `ss`. -/
theorem sota_normalizer_mojibake_bug :
    (claimDiacriticTable.all fun p =>
        PotaApi.convert_umlauts [p.1] == p.2) = true ∧
    (claimDiacriticTable.all fun p =>
        FixUmlauts.convert_umlauts [p.1] == p.2) = true ∧
    (claimDiacriticTable.all fun p =>
        SotaCsv.convert_umlauts [p.1] == p.2) = false ∧
    SotaCsv.convert_umlauts [Char.ofNat 0xe4] = ['a'] ∧
    SotaCsv.convert_umlauts [Char.ofNat 0xdf] = [] ∧
    (['a'] ≠ ['a', 'e'] ∧ ([] : List Char) ≠ ['s', 's']) := by
  decide

/-- C8 counterexample: a row whose `Frequency` field fails to parse is not
skipped by `fix_frequency_bands`: the `except` branch writes the row
unchanged (its log line says "Skipping row" but the `writerow` above the
`continue` still runs), so the row does contribute to the output. -/
theorem bad_row_passthrough_cex :
    FixFreq.fix_frequency_bands [((none : Option ℚ), (0 : ℕ))] =
        [(none, 0)] ∧
      FixFreq.fix_frequency_bands [((none : Option ℚ), (0 : ℕ))] ≠ [] := by
  decide

/-- C8 amended: the two cited stages treat unparsable rows differently.
`convert_mcp_to_icom_fm_format` skips a row whose frequency fails to parse
(it contributes nothing) and continues; `fix_frequency_bands` also
continues but writes the failing row through unchanged, while a parsing row
is written with its frequency repaired. -/
theorem bad_row_policy_amended :
    (∀ (α : Type) (a : α) (rows : List (FixFreq.FreqRow α)),
        FixFreq.fix_frequency_bands ((none, a) :: rows) =
          (none, a) :: FixFreq.fix_frequency_bands rows) ∧
    (∀ (α : Type) (f : ℚ) (a : α) (rows : List (FixFreq.FreqRow α)),
        FixFreq.fix_frequency_bands ((some f, a) :: rows) =
          (some (FixFreq.repair f), a) :: FixFreq.fix_frequency_bands rows) ∧
    (∀ (g : ℤ) (gn : List Char) (cf : Option (List Char))
        (row : FmCsv.McpRow) (rows : List FmCsv.McpRow),
        row.freq = FloatField.bad →
        FmCsv.convert_mcp_to_icom_fm_format g gn cf (row :: rows) =
          FmCsv.convert_mcp_to_icom_fm_format g gn cf rows) := by
  refine ⟨fun α a rows => rfl, fun α f a rows => rfl, fun g gn cf row rows h => ?_⟩
  have hnone : FmCsv.convertFmRow g gn cf row = none := by
    unfold FmCsv.convertFmRow
    rw [h]
    split_ifs <;> rfl
  conv_lhs => rw [FmCsv.convert_mcp_to_icom_fm_format]
  simp only [hnone]

/-- C9 counterexample: a summit whose coordinate pair is `(48.2, 0)`, which
is not the `(0, 0)` sentinel, is nevertheless dropped by the SOTA
projector, because the code skips a row when either coordinate is zero
(`if lat == 0 or lon == 0`), not only when both are. -/
theorem zero_coordinate_or_cex :
    SotaCsv.convert_sota_to_icom_format 70 "SOTA-Summits".data
        [{ lat := FloatField.num 48.2, long := FloatField.num 0,
           callsign := "OE/WI-001".data, name := "Summit".data, state := [],
           country_code := "AUT".data,
           sea_level := SotaCsv.ElevField.empty }] = [] ∧
      ((48.2 : ℚ), (0 : ℚ)) ≠ ((0 : ℚ), (0 : ℚ)) := by
  decide

/-- C9 amended: a record is excluded by the coordinate check exactly when
its latitude is zero or its longitude is zero (not only when both are); a
record with both coordinates nonzero (and a nonempty callsign, the other
skip condition) is emitted with both coordinates present. The GPS-format
twin additionally requires a nonempty name. -/
theorem zero_coordinate_filter_amended :
    (∀ (g : ℤ) (gn : List Char) (row : SotaCsv.SotaRow) (lat lon : ℚ),
        row.lat = FloatField.num lat → row.long = FloatField.num lon →
        lat = 0 ∨ lon = 0 → SotaCsv.convertSotaRow g gn row = none) ∧
    (∀ (g : ℤ) (gn : List Char) (row : SotaCsv.SotaRow) (lat lon : ℚ),
        row.lat = FloatField.num lat → row.long = FloatField.num lon →
        lat ≠ 0 → lon ≠ 0 → pyStrip row.callsign ≠ [] →
        ∃ out, SotaCsv.convertSotaRow g gn row = some out ∧
          out.latitude = lat ∧ out.longitude = lon) ∧
    (∀ (name : List Char) (lat lon : ℚ),
        SotaGps.sotaGpsRowKept name lat lon = true ↔
          name ≠ [] ∧ lat ≠ 0 ∧ lon ≠ 0) := by
  refine ⟨?_, ?_, ?_⟩
  · intro g gn row lat lon hlat hlon hz
    unfold SotaCsv.convertSotaRow
    rw [hlat, hlon]
    simp only [if_pos hz]
  · intro g gn row lat lon hlat hlon h1 h2 hcs
    unfold SotaCsv.convertSotaRow
    rw [hlat, hlon]
    simp only [if_neg (not_or.mpr ⟨h1, h2⟩), if_neg hcs]
    exact ⟨_, rfl, rfl, rfl⟩
  · intro name lat lon
    unfold SotaGps.sotaGpsRowKept
    constructor
    · intro h
      have h2 := of_decide_eq_true h
      push_neg at h2
      exact h2
    · intro h
      apply decide_eq_true
      push_neg
      exact h

/-- C9 amended witness: the amended statement evaluated on concrete
summits. -/
theorem zero_coordinate_filter_amended_witness :
    SotaCsv.convertSotaRow 70 "SOTA-Summits".data
        { lat := FloatField.num 48.2, long := FloatField.num 0,
          callsign := "OE/WI-001".data, name := "Summit".data, state := [],
          country_code := "AUT".data,
          sea_level := SotaCsv.ElevField.empty } = none ∧
    (∃ out, SotaCsv.convertSotaRow 70 "SOTA-Summits".data
        { lat := FloatField.num 48.2, long := FloatField.num 16.3,
          callsign := "OE/WI-001".data, name := "Summit".data, state := [],
          country_code := "AUT".data,
          sea_level := SotaCsv.ElevField.empty } = some out ∧
      out.latitude = 48.2 ∧ out.longitude = 16.3) ∧
    (SotaGps.sotaGpsRowKept "Summit".data 48.2 16.3 = true ↔
      "Summit".data ≠ [] ∧ (48.2 : ℚ) ≠ 0 ∧ (16.3 : ℚ) ≠ 0) := by
  refine ⟨?_, ?_, ?_⟩
  · exact zero_coordinate_filter_amended.1 70 _ _ 48.2 0 rfl rfl (Or.inr rfl)
  · exact zero_coordinate_filter_amended.2.1 70 _ _ 48.2 16.3 rfl rfl
      (by norm_num) (by norm_num) (by decide)
  · exact zero_coordinate_filter_amended.2.2 _ 48.2 16.3

/-- C10: in the FM channel projector, a row whose duplex direction is
neither `+` nor `-` is emitted with an empty Dup symbol and its Offset
forced to 0, whatever the offset field held; a row whose direction is `+`
or `-` and whose offset parses to `v` is emitted with `DUP+`/`DUP-` and
offset `v`. -/
theorem fm_duplex_mapping :
    ∀ (g : ℤ) (gn : List Char) (cf : Option (List Char))
      (row : FmCsv.McpRow) (out : IcomRow),
      FmCsv.convertFmRow g gn cf row = some out →
      ((row.dup ≠ ['+'] → row.dup ≠ ['-'] →
          out.dup = [] ∧ out.offset = some 0) ∧
       (∀ v, row.offset = FloatField.num v → row.dup = ['+'] →
          out.dup = "DUP+".data ∧ out.offset = some v) ∧
       (∀ v, row.offset = FloatField.num v → row.dup = ['-'] →
          out.dup = "DUP-".data ∧ out.offset = some v)) := by
  intro g gn cf row out h
  have hfields : out.dup = (FmCsv.dupAndOffset row.offset row.dup).1 ∧
      out.offset = some (FmCsv.dupAndOffset row.offset row.dup).2 := by
    unfold FmCsv.convertFmRow at h
    split_ifs at h <;>
      first
        | exact Option.noConfusion h
        | (rcases hf : row.freq with q | _ <;> rw [hf] at h <;>
            first
              | exact Option.noConfusion h
              | (cases h; exact ⟨rfl, rfl⟩))
  rcases hfields with ⟨hd, ho⟩
  refine ⟨fun hp hm => ?_, fun v hv hp => ?_, fun v hv hm => ?_⟩
  · rw [hd, ho]
    unfold FmCsv.dupAndOffset
    rcases row.offset with q | _
    · simp only [if_neg hp, if_neg hm]
      constructor <;> first | rfl | trivial
    · exact ⟨rfl, rfl⟩
  · rw [hd, ho, hv]
    unfold FmCsv.dupAndOffset
    simp only [if_pos hp]
    constructor <;> first | rfl | trivial
  · rw [hd, ho, hv]
    unfold FmCsv.dupAndOffset
    simp only [if_neg (show ¬row.dup = ['+'] by rw [hm]; decide), if_pos hm]
    constructor <;> first | rfl | trivial

/-- C10 witness: the duplex mapping evaluated on concrete rows. -/
theorem fm_duplex_mapping_witness :
    ∃ out : IcomRow,
      FmCsv.convertFmRow 1 [] none
          { country := [], fm := "True".data, freq := FloatField.num 145.6,
            offset := FloatField.num 0.6, dup := ['+'], ctcss_tx := none,
            loc_exact := [], lat := FloatField.num 0,
            long := FloatField.num 0, name := [], landmark := [],
            callsign := [] } = some out ∧
        out.dup = "DUP+".data ∧ out.offset = some 0.6 := by
  have h : FmCsv.convertFmRow 1 [] none
      { country := [], fm := "True".data, freq := FloatField.num 145.6,
        offset := FloatField.num 0.6, dup := ['+'], ctcss_tx := none,
        loc_exact := [], lat := FloatField.num 0,
        long := FloatField.num 0, name := [], landmark := [],
        callsign := [] } = some
      { groupNo := 1, groupName := [], name := [], subName := [],
        repeaterCallSign := [], gatewayCallSign := [],
        frequency := some 145.6, dup := "DUP+".data, offset := some 0.6,
        mode := "FM".data, tone := "OFF".data, repeaterTone := 88.5,
        rpt1use := "NO".data, position := "Approximate".data,
        latitude := 0, longitude := 0, utcOffset := "+1:00".data } := by
    decide
  exact ⟨_, h, ((fm_duplex_mapping 1 [] none _ _ h).2.1 0.6 rfl rfl).1,
    ((fm_duplex_mapping 1 [] none _ _ h).2.1 0.6 rfl rfl).2⟩

set_option maxRecDepth 40000 in
/-- C3 counterexample: two failures of the claimed order. The Vienna
projector emits Name with no normalization and no truncation at all, so a
20-character station name is emitted at length 20 > 16. The SOTA projector
truncates the state to 8 characters before the normalizer runs, which cuts
the two-code-point table key U+221A U+00A7 in half: the emitted Sub Name is
`abcdefg`, while normalizing the full text first and truncating to 16
afterwards would give `abcdefgaex`. -/
theorem truncation_order_cex :
    (Vienna.convert_vienna_radio_to_icom_format (fun _ _ => 0) (fun _ => 0)
        81 "Vienna-FM-Radio".data
        [{ lat := FloatField.num 48, long := FloatField.num 16,
           freq_rx := FloatField.num 100,
           name := "ABCDEFGHIJKLMNOPQRST".data, landmark := [], state := [],
           loc_exact := [] }]).map (fun r => r.name.length) = [20] ∧
    ¬(20 ≤ 16) ∧
    (SotaCsv.convertSotaRow 70 "SOTA-Summits".data
        { lat := FloatField.num 1, long := FloatField.num 1,
          callsign := "OE".data, name := [],
          state := "abcdefg".data ++ [Char.ofNat 0x221a, Char.ofNat 0xa7, 'x'],
          country_code := "AUT".data,
          sea_level := SotaCsv.ElevField.empty }).map (fun r => r.subName) =
      some "abcdefg".data ∧
    (SotaCsv.convert_umlauts
        ("abcdefg".data ++
          [Char.ofNat 0x221a, Char.ofNat 0xa7, 'x'])).take 16 =
      "abcdefgaex".data ∧
    "abcdefg".data ≠ "abcdefgaex".data := by
  decide

section TruncationOrder

/- `convert_umlauts` and friends applied to an abstract row must stay
opaque here: the default-transparency unifier would otherwise try to run
the substitution table on symbolic text. -/
attribute [local irreducible] SotaCsv.convert_umlauts SotaCsv.sotaName
  SotaCsv.sotaSubName pyStrip

/-- C3 amended: the SOTA projector hard-truncates its emitted Name and Sub
Name to at most 16 characters, but only after cutting the summit name to 10
and the state to 8 characters before normalization (so the emitted field
can differ from normalize-then-truncate of the full text); the Vienna
projector emits the stored station name and sub name verbatim, with no
normalization and no 16-character truncation. -/
theorem truncation_order_amended :
    (∀ (g : ℤ) (gn : List Char) (row : SotaCsv.SotaRow) (out : IcomRow),
        SotaCsv.convertSotaRow g gn row = some out →
        out.name.length ≤ 16 ∧ out.subName.length ≤ 16) ∧
    (∀ (dist : ℚ → ℚ → ℚ) (prio : List Char → ℚ) (g : ℤ)
        (gn : List Char) (rows : List Vienna.ViennaRow),
        (Vienna.convert_vienna_radio_to_icom_format dist prio g gn rows).map
            (fun r => r.name) =
          (Vienna.rankedStations dist prio rows).map (fun s => s.name) ∧
        (Vienna.convert_vienna_radio_to_icom_format dist prio g gn rows).map
            (fun r => r.subName) =
          (Vienna.rankedStations dist prio rows).map (fun s => s.sub_name)) := by
  constructor
  · intro g gn row out h
    unfold SotaCsv.convertSotaRow at h
    split at h <;>
      first
        | exact Option.noConfusion h
        | (split_ifs at h <;>
            first
              | exact Option.noConfusion h
              | (cases h
                 exact ⟨List.length_take_le 16 _, List.length_take_le 16 _⟩))
  · intro dist prio g gn rows
    constructor <;>
      simp [Vienna.convert_vienna_radio_to_icom_format, Vienna.viennaEmit,
        List.map_map, Function.comp]

end TruncationOrder

/-- First-seen-wins deduplication as the specification words it: a record
is kept exactly when no earlier record shares its key. Comparison
definition for the Vienna dedup loop, not a translation of the code. -/
def dedupeFirstSeen {α β : Type} [DecidableEq β] (key : α → β)
    (seen : List β) : List α → List α
  | [] => []
  | a :: l =>
    if key a ∈ seen then dedupeFirstSeen key seen l
    else a :: dedupeFirstSeen key (key a :: seen) l

instance : IsTotal Vienna.Station Vienna.scoreGE :=
  ⟨fun a b => le_total b.score a.score⟩

instance : IsTrans Vienna.Station Vienna.scoreGE :=
  ⟨fun _ _ _ h1 h2 => le_trans h2 h1⟩

section ViennaCollect

/- Keep the per-row work opaque: the unifier must not try to run the text
primitives on symbolic rows. -/
attribute [local irreducible] Vienna.viennaStation Vienna.station_key
  pyStrip pyLower

theorem viennaCollect_eq_dedupeFirstSeen (dist : ℚ → ℚ → ℚ)
    (prio : List Char → ℚ) (seen : List (List Char))
    (rows : List Vienna.ViennaRow) :
    Vienna.viennaCollect dist prio seen rows =
      dedupeFirstSeen (fun st => Vienna.station_key st.name) seen
        (rows.filterMap (Vienna.viennaStation dist prio)) := by
  induction rows generalizing seen with
  | nil => rfl
  | cons row rest ih =>
    rw [Vienna.viennaCollect, List.filterMap_cons]
    cases hst : Vienna.viennaStation dist prio row with
    | none => exact ih seen
    | some st =>
      simp only [dedupeFirstSeen]
      by_cases hk : Vienna.station_key st.name ∈ seen
      · rw [if_pos hk, if_pos hk]
        exact ih seen
      · rw [if_neg hk, if_neg hk, ih]

end ViennaCollect

/-- The specification's dedup example, realized as Vienna rows: with
distance read from the latitude field and no priority table hits, the three
rows carry keys A, A, B and scores 1, 9, 5 (bonus `max 0 (50 - distance)`),
and the frequencies 100, 101, 102 mark which physical row survives. -/
def viennaExampleRows : List Vienna.ViennaRow :=
  [{ lat := FloatField.num 49, long := FloatField.num 16,
     freq_rx := FloatField.num 100, name := "A".data, landmark := [],
     state := [], loc_exact := [] },
   { lat := FloatField.num 41, long := FloatField.num 16,
     freq_rx := FloatField.num 101, name := "A".data, landmark := [],
     state := [], loc_exact := [] },
   { lat := FloatField.num 45, long := FloatField.num 16,
     freq_rx := FloatField.num 102, name := "B".data, landmark := [],
     state := [], loc_exact := [] }]

/-- C4: the Vienna dedup-and-rank stage keeps only the first-seen record
per case-folded, space-stripped name key, sorts the survivors by descending
score (priority plus the proximity bonus `max 0 (50 - distance)`) with ties
kept in ingestion order (a stable sort), and cuts to the top 50. On the
specification's example the output order is B then A with the first-seen A
(score 1, frequency 100) retained, not the higher-scoring duplicate. -/
theorem dedupe_and_rank_spec :
    ((Vienna.convert_vienna_radio_to_icom_format (fun lat _ => lat)
        (fun _ => 0) 81 "Vienna-FM-Radio".data viennaExampleRows).map
        (fun r => (r.name, r.frequency)) =
      [("B".data, some 102), ("A".data, some 100)]) ∧
    (∀ (dist : ℚ → ℚ → ℚ) (prio : List Char → ℚ) (seen : List (List Char))
        (rows : List Vienna.ViennaRow),
        Vienna.viennaCollect dist prio seen rows =
          dedupeFirstSeen (fun st => Vienna.station_key st.name) seen
            (rows.filterMap (Vienna.viennaStation dist prio))) ∧
    (∀ (dist : ℚ → ℚ → ℚ) (prio : List Char → ℚ)
        (rows : List Vienna.ViennaRow),
        (Vienna.rankedStations dist prio rows).Pairwise Vienna.scoreGE) ∧
    (∀ (dist : ℚ → ℚ → ℚ) (prio : List Char → ℚ)
        (rows : List Vienna.ViennaRow) (a b : Vienna.Station),
        a.score = b.score →
        List.Sublist [a, b] (Vienna.viennaCollect dist prio [] rows) →
        List.Sublist [a, b]
          ((Vienna.viennaCollect dist prio [] rows).insertionSort
            Vienna.scoreGE)) ∧
    (∀ (dist : ℚ → ℚ → ℚ) (prio : List Char → ℚ)
        (rows : List Vienna.ViennaRow),
        (Vienna.rankedStations dist prio rows).length ≤ 50) ∧
    Vienna.station_key "Radio Wien".data = "radiowien".data := by
  refine ⟨by decide, viennaCollect_eq_dedupeFirstSeen, ?_, ?_, ?_, by decide⟩
  · intro dist prio rows
    exact ((List.sorted_insertionSort Vienna.scoreGE _).sublist
      (List.take_sublist 50 _))
  · intro dist prio rows a b hs hsub
    exact List.pair_sublist_insertionSort (le_of_eq hs.symm) hsub
  · intro dist prio rows
    exact List.length_take_le 50 _

/-- C4 witness: the stability conjunct evaluated on two concrete
equal-score stations in first-seen order. -/
theorem dedupe_and_rank_spec_witness :
    List.Sublist
      (["A".data, "B".data].map
        (fun n =>
          ({ score := 50, name := n, sub_name := "Austria".data,
             frequency := 100, lat := 48, lon := 16,
             loc_exact := false } : Vienna.Station)))
      ((Vienna.viennaCollect (fun _ _ => 0) (fun _ => 0) []
          [{ lat := FloatField.num 48, long := FloatField.num 16,
             freq_rx := FloatField.num 100, name := "A".data,
             landmark := [], state := [], loc_exact := [] },
           { lat := FloatField.num 48, long := FloatField.num 16,
             freq_rx := FloatField.num 100, name := "B".data,
             landmark := [], state := [], loc_exact := [] }]).insertionSort
        Vienna.scoreGE) := by
  exact dedupe_and_rank_spec.2.2.2.1 (fun _ _ => 0) (fun _ => 0) _ _ _ rfl
    (by decide)

/-! ## Helper lemmas for the grid geocoders -/

theorem pyUpper_space : pyUpper ' ' = ' ' := rfl

theorem getD_map_pyUpper (l : List Char) (i : ℕ) :
    (l.map pyUpper).getD i ' ' = pyUpper (l.getD i ' ') := by
  induction l generalizing i with
  | nil => cases i <;> rfl
  | cons c t ih =>
    cases i with
    | zero => rfl
    | succ j => exact ih j

theorem digitOk_bounds (c : Char) (h : digitOk c = true) :
    48 ≤ c.toNat ∧ c.toNat ≤ 57 := by
  simpa [digitOk] using h

theorem pyUpper_digit (c : Char) (h : digitOk c = true) : pyUpper c = c := by
  have hb := digitOk_bounds c h
  unfold pyUpper
  rw [if_neg]
  omega

theorem pyInt?_digit (c : Char) (h : digitOk c = true) :
    pyInt? c = some ((c.toNat : ℤ) - 48) := by
  unfold pyInt?
  rw [if_pos (digitOk_bounds c h)]

/-- C7 counterexample: `maidenhead_to_latlon` accepts "SS11" and returns a
coordinate pair although S lies outside the A-R field alphabet: the code
validates only the length and the digit positions, never the letter
ranges. -/
theorem grid_validation_cex :
    validMaidenhead "SS11".data = false ∧
    (PotaApi.maidenhead_to_latlon "SS11".data).isSome = true ∧
    PotaApi.maidenhead_to_latlon "SS11".data =
      some (round6 (91 + 1.25 / 60), round6 (182 + 1 / 60)) := by
  decide

/-- C7 amended: `maidenhead_to_latlon` returns absent exactly when the
length is below 4 or a digit position fails to parse after uppercasing
(positions 2-3 always, positions 6-7 only when the length is at least 8);
the letter positions are never range-checked, so any characters are
accepted there. The sibling `maidenhead_to_gps` never parses digits at all
and returns absent exactly when the length is below 4. -/
theorem grid_validation_amended (grid : List Char) :
    (PotaApi.maidenhead_to_latlon grid = none ↔
      grid.length < 4 ∨
        pyInt? (pyUpper (grid.getD 2 ' ')) = none ∨
        pyInt? (pyUpper (grid.getD 3 ' ')) = none ∨
        (8 ≤ grid.length ∧
          (pyInt? (pyUpper (grid.getD 6 ' ')) = none ∨
           pyInt? (pyUpper (grid.getD 7 ' ')) = none))) ∧
    (GenGps.maidenhead_to_gps grid = none ↔ grid.length < 4) := by
  constructor
  · unfold PotaApi.maidenhead_to_latlon
    by_cases hlen : grid = [] ∨ grid.length < 4
    · have h4 : grid.length < 4 := by
        rcases hlen with rfl | h
        · simp
        · exact h
      rw [if_pos hlen]
      simp [h4]
    · have h4 : ¬grid.length < 4 := fun h => hlen (Or.inr h)
      rw [if_neg hlen]
      simp only [getD_map_pyUpper, List.length_map]
      cases h2 : pyInt? (pyUpper (grid.getD 2 ' ')) with
      | none => simp [h2, h4]
      | some d2 =>
        cases h3 : pyInt? (pyUpper (grid.getD 3 ' ')) with
        | none => simp [h3, h4]
        | some d3 =>
          by_cases h8 : 8 ≤ grid.length
          · simp only [if_pos h8]
            cases h6 : pyInt? (pyUpper (grid.getD 6 ' ')) with
            | none => simp [h2, h3, h4, h6, h8]
            | some d6 =>
              cases h7 : pyInt? (pyUpper (grid.getD 7 ' ')) with
              | none => simp [h2, h3, h4, h6, h7, h8]
              | some d7 => simp [h2, h3, h4, h6, h7, h8]
          · simp [if_neg h8, h2, h3, h4, h8]
  · unfold GenGps.maidenhead_to_gps
    by_cases hlen : grid = [] ∨ grid.length < 4
    · have h4 : grid.length < 4 := by
        rcases hlen with rfl | h
        · simp
        · exact h
      rw [if_pos hlen]
      simp [h4]
    · have h4 : ¬grid.length < 4 := fun h => hlen (Or.inr h)
      rw [if_neg hlen]
      dsimp only
      split_ifs <;> simp [h4]

/-- C1 counterexample: for the valid 4-character locator JN88 the claimed
center would be the base plus half the 4-character cell (+0.5 latitude,
+1 longitude, i.e. (48.5, 17)), but `maidenhead_to_latlon` adds its fixed
offset (+1.25/60, +1/60) instead, yielding (48.020833, 16.016667). -/
theorem grid_center_offset_cex :
    validMaidenhead "JN88".data = true ∧
    baseLat "JN88".data = 48 ∧ baseLon "JN88".data = 16 ∧
    PotaApi.maidenhead_to_latlon "JN88".data =
      some (48020833 / 1000000, 16016667 / 1000000) ∧
    PotaApi.maidenhead_to_latlon "JN88".data ≠
      some (round6 (48 + 0.5), round6 (16 + 1)) := by
  decide

/-- C1 amended: for every valid locator of length 4, 6 or 8,
`maidenhead_to_latlon` returns the cell's base coordinates plus the fixed
offset +1.25/60 degrees latitude and +1/60 degrees longitude, independent
of the resolution (it equals a half cell only in latitude at 6-character
resolution), rounded to 6 decimals; the sibling `maidenhead_to_gps` adds a
true half cell (+0.5, +1) but only at 4-character resolution, adds no
offset at all from 6 characters on, and ignores characters 7 and 8. -/
theorem grid_center_offset_amended (g : List Char)
    (hv : validMaidenhead g = true) :
    PotaApi.maidenhead_to_latlon g =
      some (round6 (baseLat g + 1.25 / 60), round6 (baseLon g + 1 / 60)) ∧
    (g.length = 4 →
      GenGps.maidenhead_to_gps g =
        some (baseLat g + 0.5, baseLon g + 1)) ∧
    (6 ≤ g.length →
      GenGps.maidenhead_to_gps g =
        some (baseLat (g.take 6), baseLon (g.take 6))) := by
  unfold validMaidenhead at hv
  split at hv
  case h_4 => simp at hv
  case h_1 a b c d =>
    rw [decide_eq_true_eq] at hv
    obtain ⟨ha, hb, hc, hd⟩ := hv
    refine ⟨?_, fun _ => ?_, fun hl => by simp at hl⟩
    · unfold PotaApi.maidenhead_to_latlon
      rw [if_neg (by simp)]
      simp only [List.map_cons, List.map_nil, List.getD_cons_zero,
        List.getD_cons_succ, List.length_cons, List.length_nil]
      rw [pyUpper_digit c hc, pyUpper_digit d hd, pyInt?_digit c hc,
        pyInt?_digit d hd]
      simp only [baseLat, baseLon, latFieldOf, lonFieldOf, digitVal]
      norm_num [round6]
    · unfold GenGps.maidenhead_to_gps
      rw [if_neg (by simp)]
      simp only [List.map_cons, List.map_nil, List.getD_cons_zero,
        List.getD_cons_succ, List.length_cons, List.length_nil]
      rw [pyUpper_digit c hc, pyUpper_digit d hd]
      simp only [baseLat, baseLon, latFieldOf, lonFieldOf, digitVal]
      norm_num
  case h_2 a b c d e f =>
    rw [decide_eq_true_eq] at hv
    obtain ⟨ha, hb, hc, hd, he, hf⟩ := hv
    refine ⟨?_, fun hl => by simp at hl, fun _ => ?_⟩
    · unfold PotaApi.maidenhead_to_latlon
      rw [if_neg (by simp)]
      simp only [List.map_cons, List.map_nil, List.getD_cons_zero,
        List.getD_cons_succ, List.length_cons, List.length_nil]
      rw [pyUpper_digit c hc, pyUpper_digit d hd, pyInt?_digit c hc,
        pyInt?_digit d hd]
      simp only [baseLat, baseLon, latFieldOf, lonFieldOf, digitVal,
        letterVal]
      norm_num [round6]
    · unfold GenGps.maidenhead_to_gps
      rw [if_neg (by simp)]
      simp only [List.take, List.map_cons, List.map_nil, List.getD_cons_zero,
        List.getD_cons_succ, List.length_cons, List.length_nil]
      rw [pyUpper_digit c hc, pyUpper_digit d hd]
      simp only [baseLat, baseLon, latFieldOf, lonFieldOf, digitVal,
        letterVal]
      norm_num
  case h_3 a b c d e f x y =>
    rw [decide_eq_true_eq] at hv
    obtain ⟨ha, hb, hc, hd, he, hf, hx, hy⟩ := hv
    refine ⟨?_, fun hl => by simp at hl, fun _ => ?_⟩
    · unfold PotaApi.maidenhead_to_latlon
      rw [if_neg (by simp)]
      simp only [List.map_cons, List.map_nil, List.getD_cons_zero,
        List.getD_cons_succ, List.length_cons, List.length_nil]
      rw [pyUpper_digit c hc, pyUpper_digit d hd, pyUpper_digit x hx,
        pyUpper_digit y hy, pyInt?_digit c hc, pyInt?_digit d hd,
        pyInt?_digit x hx, pyInt?_digit y hy]
      simp only [baseLat, baseLon, latFieldOf, lonFieldOf, digitVal,
        letterVal]
      norm_num [round6]
    · unfold GenGps.maidenhead_to_gps
      rw [if_neg (by simp)]
      simp only [List.take, List.map_cons, List.map_nil, List.getD_cons_zero,
        List.getD_cons_succ, List.length_cons, List.length_nil]
      rw [pyUpper_digit c hc, pyUpper_digit d hd]
      simp only [baseLat, baseLon, latFieldOf, lonFieldOf, digitVal,
        letterVal]
      norm_num

/-- C1 amended witness: the amended statement evaluated at JN88. -/
theorem grid_center_offset_amended_witness :
    PotaApi.maidenhead_to_latlon "JN88".data =
      some (round6 (baseLat "JN88".data + 1.25 / 60),
            round6 (baseLon "JN88".data + 1 / 60)) ∧
    GenGps.maidenhead_to_gps "JN88".data =
      some (baseLat "JN88".data + 0.5, baseLon "JN88".data + 1) := by
  have h := grid_center_offset_amended "JN88".data (by decide)
  exact ⟨h.1, h.2.1 (by decide)⟩

/-- C3 amended witness: the SOTA bound evaluated on a concrete summit. -/
theorem truncation_order_amended_witness :
    ∃ out, SotaCsv.convertSotaRow 70 "SOTA-Summits".data
        { lat := FloatField.num 48.2, long := FloatField.num 16.3,
          callsign := "OE/OO-001".data, name := "Summit".data, state := [],
          country_code := "AUT".data,
          sea_level := SotaCsv.ElevField.empty } = some out ∧
      out.name.length ≤ 16 ∧ out.subName.length ≤ 16 := by
  have h : SotaCsv.convertSotaRow 70 "SOTA-Summits".data
      { lat := FloatField.num 48.2, long := FloatField.num 16.3,
        callsign := "OE/OO-001".data, name := "Summit".data, state := [],
        country_code := "AUT".data,
        sea_level := SotaCsv.ElevField.empty } = some
      { groupNo := 70, groupName := "SOTA-Summits".data,
        name := "OE/OO-001 Summit".data, subName := "AUT".data,
        repeaterCallSign := [], gatewayCallSign := [], frequency := none,
        dup := [], offset := none, mode := "GPS".data, tone := [],
        repeaterTone := 0, rpt1use := [], position := "Exact".data,
        latitude := 48.2, longitude := 16.3,
        utcOffset := "+1:00".data } := by decide
  exact ⟨_, h, truncation_order_amended.1 70 _ _ _ h⟩

/-- C8 amended witness: a concrete unparsable FM row contributes nothing,
and a concrete unparsable frequency row passes through. -/
theorem bad_row_policy_amended_witness :
    FmCsv.convert_mcp_to_icom_fm_format 1 [] none
        [{ country := [], fm := "True".data, freq := FloatField.bad,
           offset := FloatField.bad, dup := [], ctcss_tx := none,
           loc_exact := [], lat := FloatField.bad, long := FloatField.bad,
           name := [], landmark := [], callsign := [] }] = [] ∧
    FixFreq.fix_frequency_bands [((none : Option ℚ), (7 : ℕ))] =
      [(none, 7)] := by
  constructor
  · exact (bad_row_policy_amended.2.2 1 [] none _ [] rfl).trans rfl
  · exact (bad_row_policy_amended.1 ℕ 7 []).trans rfl

end Codeplug
